import Mathlib

/-!
Verification of the learn-go-microservices repository.

The repository contains an HTTP "Hello" handler (src/handlers/hello.go, and
an inline copy in src/main.go) and three `main` variants: a plain one
(src/unnamed/part_000), a graceful-shutdown variant with a buffered signal
channel and an ErrServerClosed check (src/unnamed/part_001), and an earlier
graceful-shutdown variant without those fixes (src/unnamed/part_002).

Request bodies and response bodies are modelled as lists of characters
(Go byte slices / strings).  The relevant pieces of the Go standard library
(io.ReadAll, fmt.Fprintf, http.Error, net/http Server.Shutdown, os/signal
Notify) are modelled as the environment the repository's code runs in.
-/

/-- Bytes of a request or response body (a Go byte slice / string). -/
abbrev Bytes := List Char

/-- Result of `io.ReadAll(r.Body)`: either the whole body, or a read error. -/
inductive ReadResult where
  | ok (d : Bytes)
  | err
deriving DecidableEq

/-- An HTTP response as observed by the client: status code and body. -/
structure Response where
  status : Nat
  body : Bytes
deriving DecidableEq

/-- Model of fmt's format-string interpretation for the directives relevant
here: a literal character is copied to the output; `%s` consumes the next
argument and copies it verbatim; a `%` with no following verb or an unknown
verb produces fmt's escaped diagnostic text.  The arguments themselves are
never scanned for directives.  (fmt's trailing extra-argument diagnostic is
not modelled; the only format string used by the repository, `"Hello %s"`,
is called with exactly one argument.) -/
def runFormat : Bytes → List Bytes → Bytes
  | [], _ => []
  | c :: rest, args =>
    if c = '%' then
      match rest, args with
      | 's' :: rest2, a :: args2 => a ++ runFormat rest2 args2
      | 's' :: rest2, [] => ('%' :: '!' :: 's' :: "(MISSING)".toList) ++ runFormat rest2 []
      | v :: rest2, args2 => '%' :: '!' :: v :: runFormat rest2 args2
      | [], _ => "%!(NOVERB)".toList
    else c :: runFormat rest args

/-- Model of `http.Error(w, msg, code)`: sets the response status to `code`
and writes `msg` followed by a newline. -/
def httpError (msg : Bytes) (code : Nat) : Response :=
  { status := code, body := msg ++ ['\n'] }

/-- Model of `fmt.Fprintf(w, format, args...)` on a ResponseWriter whose
header has not been written yet: the first write implicitly sends status
200, and the formatted text becomes the body. -/
def fprintfResponse (format : Bytes) (args : List Bytes) : Response :=
  { status := 200, body := runFormat format args }

/-- src/handlers/hello.go lines 17-24, `Hello.ServeHTTP`:
`d, err := io.ReadAll(r.Body)`; on error
`http.Error(w, "Oops..", http.StatusBadRequest)` and return; otherwise
`fmt.Fprintf(w, "Hello %s", d)`. -/
def helloServeHTTP (r : ReadResult) : Response :=
  match r with
  | .err => httpError "Oops..".toList 400
  | .ok d => fprintfResponse "Hello %s".toList [d]

/-- src/main.go lines 21-40, the inline anonymous handler registered on
`"/"`: `d, err := io.ReadAll(r.Body)`; on error
`http.Error(w, "Oops..", http.StatusBadRequest)` and return; otherwise
`fmt.Fprintf(w, "Hello %s", d)`.  Translated separately from src/main.go
so that its equivalence with `helloServeHTTP` is a real statement. -/
def mainInlineHandler (r : ReadResult) : Response :=
  match r with
  | .err => httpError "Oops..".toList 400
  | .ok d => fprintfResponse "Hello %s".toList [d]

/-- The server dispatches every request to the one registered handler;
serving a stream of requests is mapping the handler over them.  The handler
has no exit/crash path, so every request in the stream gets a response. -/
def serveAll (rs : List ReadResult) : List Response :=
  rs.map helloServeHTTP

lemma runFormat_hello (B : Bytes) :
    runFormat ['H', 'e', 'l', 'l', 'o', ' ', '%', 's'] [B]
      = 'H' :: 'e' :: 'l' :: 'l' :: 'o' :: ' ' :: B := by
  simp [runFormat]

example : helloServeHTTP (ReadResult.ok "world".toList)
    = { status := 200, body := "Hello world".toList } := by decide

/-- C1: for every request body B (including the empty body), when the body
stream is read without error the handler responds with status 200 and body
exactly `"Hello " ++ B`. -/
theorem hello_ok_status200_body (B : Bytes) :
    helloServeHTTP (ReadResult.ok B)
      = { status := 200, body := "Hello ".toList ++ B } := by
  show fprintfResponse "Hello %s".toList [B] = _
  simp [fprintfResponse, runFormat_hello]

/-- C1 witness: the claim at the concrete bodies `"world"` and `""`. -/
theorem hello_ok_status200_body_witness :
    helloServeHTTP (ReadResult.ok "world".toList)
        = { status := 200, body := "Hello world".toList }
    ∧ helloServeHTTP (ReadResult.ok [])
        = { status := 200, body := "Hello ".toList } := by
  exact ⟨hello_ok_status200_body "world".toList, hello_ok_status200_body []⟩

/-- C6: on a body-read error the handler responds with status 400, its body
is never a success body `"Hello " ++ _`, and serving goes on: every request
in any stream of requests (read errors included) gets a response. -/
theorem hello_err_400_keeps_serving :
    (helloServeHTTP ReadResult.err).status = 400
    ∧ (∀ B : Bytes, (helloServeHTTP ReadResult.err).body ≠ "Hello ".toList ++ B)
    ∧ (∀ rs : List ReadResult, (serveAll rs).length = rs.length) := by
  refine ⟨rfl, ?_, ?_⟩
  · intro B h
    have h2 : (some 'O' : Option Char) = some 'H' := congrArg List.head? h
    simp at h2
  · intro rs
    simp [serveAll]

/-- C9: the request body is echoed verbatim: the response body is
`"Hello " ++ B` for every body B, and in particular bytes that look like
format directives (`"%s"`, `"%d"`) pass through uninterpreted, because the
body is only an argument of the fixed format string `"Hello %s"` and
`runFormat` scans only the format string for directives. -/
theorem hello_body_verbatim_no_format_injection :
    (∀ B : Bytes, (helloServeHTTP (ReadResult.ok B)).body = "Hello ".toList ++ B)
    ∧ (helloServeHTTP (ReadResult.ok "%s".toList)).body = "Hello %s".toList
    ∧ (helloServeHTTP (ReadResult.ok "%d".toList)).body = "Hello %d".toList := by
  refine ⟨?_, by decide, by decide⟩
  intro B
  show (fprintfResponse "Hello %s".toList [B]).body = _
  simp [fprintfResponse, runFormat_hello]

/-- C10: the inline anonymous handler of src/main.go and `Hello.ServeHTTP`
of src/handlers/hello.go are behaviorally equivalent: on every read result
(successful or failing) they produce the same status and body. -/
theorem mainInlineHandler_eq_helloServeHTTP :
    ∀ r : ReadResult, mainInlineHandler r = helloServeHTTP r := by
  intro r
  cases r <;> rfl

/-! ## Lifecycle controller: listen errors, signals, program order -/

/-- The error returned by `s.ListenAndServe()` when it stops:
`http.ErrServerClosed` after `s.Shutdown` was called, or any other
(bind/listen) error. -/
inductive ListenErr where
  | serverClosed
  | otherErr
deriving DecidableEq, BEq

/-- src/unnamed/part_001 lines 43-45, the listener goroutine's error check:
`if err != nil && err != http.ErrServerClosed { log.Fatal(err) }`.
`none` stands for `err == nil`. -/
def part1FatalOn (e : Option ListenErr) : Bool :=
  e != none && e != some ListenErr.serverClosed

/-- src/unnamed/part_002 lines 37-39, the listener goroutine's error check:
`if err != nil { log.Fatal(err) }`. -/
def part2FatalOn (e : Option ListenErr) : Bool :=
  e != none

/-- Operating-system signals relevant to the two variants. -/
inductive Sig where
  | interrupt
  | term
  | kill
  | hup
deriving DecidableEq, BEq

/-- src/unnamed/part_001 line 60:
`signal.Notify(sigChan, os.Interrupt, syscall.SIGTERM)`. -/
def part1SubscribedSignals : List Sig := [Sig.interrupt, Sig.term]

/-- src/unnamed/part_002 lines 50-51:
`signal.Notify(sigChan, os.Kill)` then `signal.Notify(sigChan, os.Interrupt)`. -/
def part2SubscribedSignals : List Sig := [Sig.kill, Sig.interrupt]

/-- Modelled from os/signal semantics: a delivered signal is forwarded to
the channel (and so reaches the shutdown logic) iff it was subscribed via
`signal.Notify`; an unsubscribed signal keeps its default disposition. -/
def reacts (subs : List Sig) (s : Sig) : Bool :=
  subs.contains s

/-- The statements of the two `main` bodies that matter for startup
ordering, in the roles they play. -/
inductive MainStep where
  | registerHandler
  | buildServer
  | spawnListenTask
  | makeSignalChannel
  | subscribeSignals
  | spawnSignalWaitTask
  | receiveSignal
  | callShutdown
  | blockForever
deriving DecidableEq, BEq

/-- Program order of the main goroutine of src/unnamed/part_001:
`sm.Handle` (line 24), server construction (26-32), `go s.ListenAndServe`
(36-46), `make(chan os.Signal, 1)` (54), `signal.Notify` (60), the signal
wait / shutdown goroutine (65-102), `select {}` (109). -/
def part1MainOrder : List MainStep :=
  [MainStep.registerHandler, MainStep.buildServer, MainStep.spawnListenTask,
   MainStep.makeSignalChannel, MainStep.subscribeSignals,
   MainStep.spawnSignalWaitTask, MainStep.blockForever]

/-- Program order of the main goroutine of src/unnamed/part_002:
`sm.Handle` (line 23), server construction (25-31), `go s.ListenAndServe`
(35-40), `make(chan os.Signal)` (44), `signal.Notify` twice (50-51),
`sig := <-sigChan` (57), `s.Shutdown(tc)` (81). -/
def part2MainOrder : List MainStep :=
  [MainStep.registerHandler, MainStep.buildServer, MainStep.spawnListenTask,
   MainStep.makeSignalChannel, MainStep.subscribeSignals,
   MainStep.receiveSignal, MainStep.callShutdown]

/-- Position of a step in a main-goroutine program order. -/
def posOf (s : MainStep) : List MainStep → Nat
  | [] => 0
  | t :: rest => if t = s then 0 else posOf s rest + 1

/-- C3 counterexample: the claimed ordering — signal subscription
established before the listener task is started — is false of both
variants: in each main goroutine the `go s.ListenAndServe()` statement
precedes `signal.Notify`.  Nothing synchronizes the spawned listener
goroutine with the rest of `main`, so there are schedules in which the
listener is already accepting connections (and a signal can arrive) before
the subscription exists. -/
theorem subscribe_not_before_listen :
    ¬ (posOf MainStep.subscribeSignals part1MainOrder
        < posOf MainStep.spawnListenTask part1MainOrder)
    ∧ ¬ (posOf MainStep.subscribeSignals part2MainOrder
        < posOf MainStep.spawnListenTask part2MainOrder) := by
  decide

/-- C3 amended: in both variants the listener task is spawned first and the
signal subscription is established only after it, though still before the
signal wait begins (before the waiter goroutine is spawned in part_001,
before the channel receive in part_002). -/
theorem listen_spawned_before_subscribe :
    posOf MainStep.spawnListenTask part1MainOrder
        < posOf MainStep.subscribeSignals part1MainOrder
    ∧ posOf MainStep.subscribeSignals part1MainOrder
        < posOf MainStep.spawnSignalWaitTask part1MainOrder
    ∧ posOf MainStep.spawnListenTask part2MainOrder
        < posOf MainStep.subscribeSignals part2MainOrder
    ∧ posOf MainStep.subscribeSignals part2MainOrder
        < posOf MainStep.receiveSignal part2MainOrder := by
  decide

/-- C7: part_002 treats the expected `http.ErrServerClosed` — returned by
`ListenAndServe` during every graceful shutdown — as fatal, while part_001
aborts exactly on errors other than `ErrServerClosed` (its comments call
`ErrServerClosed` "an expected error during a graceful shutdown"). -/
theorem part2_fatal_on_serverClosed :
    part2FatalOn (some ListenErr.serverClosed) = true
    ∧ part1FatalOn (some ListenErr.serverClosed) = false
    ∧ (∀ e, part1FatalOn e = true
        ↔ e ≠ none ∧ e ≠ some ListenErr.serverClosed) := by
  refine ⟨rfl, rfl, ?_⟩
  intro e
  cases e with
  | none => decide
  | some v => cases v <;> decide

/-- C8: a SIGTERM termination request does not reach part_002's controller —
it subscribed `os.Kill` (which can never be trapped) and `os.Interrupt`,
not SIGTERM — while part_001 reacts to exactly the interrupt and
termination signals, ignoring all others. -/
theorem part2_misses_sigterm :
    reacts part2SubscribedSignals Sig.term = false
    ∧ (∀ s, reacts part1SubscribedSignals s = true
        ↔ s = Sig.interrupt ∨ s = Sig.term) := by
  refine ⟨rfl, ?_⟩
  intro s
  cases s <;> decide

/-! ## Graceful shutdown: drain, timing, process exit -/

/-- Outcome of `s.Shutdown(tc)`: `clean` when all in-flight requests
drained before the context deadline (`Shutdown` returns nil), `timeout`
when the deadline elapsed first (`Shutdown` returns the context's error). -/
inductive ShutdownResult where
  | clean
  | timeout
deriving DecidableEq

/-- One time unit of draining: requests whose remaining handler time is 0
complete and leave; every other in-flight request gets one unit closer to
completion. -/
def drainStep (rs : List Nat) : List Nat :=
  (rs.filter (fun r => r ≠ 0)).map (fun r => r - 1)

/-- The in-flight requests still active when the deadline elapses, given
the deadline `d` (in time units) and the remaining handler times `rs` of
the requests in flight when `Shutdown` is called.  Modelled from net/http
`Server.Shutdown`: it waits for active requests, up to the context
deadline. -/
def drainRemaining : Nat → List Nat → List Nat
  | 0, rs => rs
  | d + 1, rs => if rs.isEmpty then [] else drainRemaining d (drainStep rs)

/-- Modelled from net/http `Server.Shutdown` with a context deadline `d`:
returns `clean` when the drain finishes inside the deadline; otherwise the
deadline elapses, the connections still in `drainRemaining d rs` are
forcibly closed, and `Shutdown` reports `timeout`. -/
def drain (d : Nat) (rs : List Nat) : ShutdownResult :=
  if (drainRemaining d rs).isEmpty then ShutdownResult.clean
  else ShutdownResult.timeout

lemma drainRemaining_ne_nil {d : Nat} {rs : List Nat} {r : Nat}
    (hmem : r ∈ rs) (hd : d ≤ r) : drainRemaining d rs ≠ [] := by
  induction d generalizing rs r with
  | zero =>
    simp only [drainRemaining]
    intro hnil
    rw [hnil] at hmem
    exact List.not_mem_nil r hmem
  | succ d ih =>
    simp only [drainRemaining]
    have hne : rs.isEmpty = false := by
      cases rs with
      | nil => exact absurd hmem (List.not_mem_nil r)
      | cons a as => rfl
    rw [hne]
    simp only [Bool.false_eq_true, if_false]
    have hr0 : r ≠ 0 := by omega
    have hmem2 : r - 1 ∈ drainStep rs := by
      apply List.mem_map.mpr
      exact ⟨r, List.mem_filter.mpr ⟨hmem, by simp [hr0]⟩, rfl⟩
    exact ih hmem2 (by omega)

/-- C5: an in-flight request whose remaining handler time exceeds the
shutdown deadline makes `Shutdown` report a timeout, with the remaining
connections forcibly closed (a nonempty remaining set at the deadline) —
there is no unbounded wait; and in the concrete scenario of a 30-unit
deadline and a single handler sleeping 5 units, shutdown is clean. -/
theorem drain_timeout_iff_overlong :
    (∀ (d : Nat) (rs : List Nat) (r : Nat), r ∈ rs → d < r →
      drain d rs = ShutdownResult.timeout ∧ drainRemaining d rs ≠ [])
    ∧ drain 30 [5] = ShutdownResult.clean := by
  constructor
  · intro d rs r hmem hd
    have hne := drainRemaining_ne_nil hmem (by omega : d ≤ r)
    constructor
    · unfold drain
      rw [if_neg]
      simp [List.isEmpty_iff, hne]
    · exact hne
  · decide

/-- C5 witness: deadline 3, one in-flight handler with 10 units left —
`Shutdown` reports timeout and the connection is still open at the
deadline (forcibly closed). -/
theorem drain_timeout_iff_overlong_witness :
    drain 3 [10] = ShutdownResult.timeout ∧ drainRemaining 3 [10] ≠ [] :=
  drain_timeout_iff_overlong.1 3 [10] 10 (by decide) (by decide)

/-- src/unnamed/part_001 line 77: `time.Sleep(5 * time.Second)` between
receiving the signal and initiating shutdown ("to simulate some cleanup
work"). -/
def cleanupSleep : Nat := 5

/-- Lines 84 (part_001) and 68 (part_002):
`context.WithTimeout(context.Background(), 30*time.Second)`. -/
def shutdownTimeout : Nat := 30

/-- The absolute time at which part_001's shutdown goroutine calls
`s.Shutdown`, given the signal delivery time `ts`: it first logs and
sleeps `cleanupSleep` units (lines 70-77), then calls `Shutdown`
(line 97). -/
def part1ShutdownStart (ts : Nat) : Nat := ts + cleanupSleep

/-- part_002 calls `s.Shutdown` directly after receiving the signal
(lines 57-81, no sleep). -/
def part2ShutdownStart (ts : Nat) : Nat := ts

/-- Modelled from net/http: the server accepts a new connection at time `t`
exactly when `Shutdown` has not yet been called; `Shutdown` immediately
closes the listeners.  For part_001 with the signal delivered at `ts`. -/
def part1AcceptsAt (ts t : Nat) : Bool :=
  decide (t < part1ShutdownStart ts)

/-- Same acceptance model for part_002. -/
def part2AcceptsAt (ts t : Nat) : Bool :=
  decide (t < part2ShutdownStart ts)

/-- A request in flight when part_001's `Shutdown` starts, finishing at
absolute time `tf`, completes successfully exactly when it finishes before
the drain deadline `part1ShutdownStart ts + shutdownTimeout`; at the
deadline the remaining connections are forcibly closed. -/
def part1RequestCompletes (ts tf : Nat) : Bool :=
  decide (tf < part1ShutdownStart ts + shutdownTimeout)

/-- C4 counterexample: with the termination signal delivered at time 0, a
new connection arriving at time 2 — strictly after the signal — is still
accepted by part_001, because `Shutdown` is only called after the 5-unit
cleanup sleep. -/
theorem part1_accepts_after_signal :
    (0 : Nat) < 2 ∧ part1AcceptsAt 0 2 = true := by
  decide

/-- C4 amended: part_001 keeps accepting new connections for exactly the
5-unit cleanup pause after the signal and accepts none from shutdown
initiation onward; part_002 accepts none from the signal onward; and an
in-flight request completes successfully exactly when it finishes before
the drain deadline, 30 units after shutdown initiation. -/
theorem accept_window_and_inflight_completion :
    (∀ ts t, part1AcceptsAt ts t = true ↔ t < ts + cleanupSleep)
    ∧ (∀ ts t, part2AcceptsAt ts t = true ↔ t < ts)
    ∧ (∀ ts tf, part1RequestCompletes ts tf = true
        ↔ tf < ts + cleanupSleep + shutdownTimeout) := by
  refine ⟨?_, ?_, ?_⟩
  · intro ts t
    simp [part1AcceptsAt, part1ShutdownStart]
  · intro ts t
    simp [part2AcceptsAt, part2ShutdownStart]
  · intro ts tf
    simp [part1RequestCompletes, part1ShutdownStart]

/-- What the operating system observes of the process in the end. -/
inductive ProcessOutcome where
  | exited (code : Nat)
  | runsForever
deriving DecidableEq

/-- part_001's listener goroutine (lines 36-46): `log.Fatal` exits the
process with code 1 when the error check fires; otherwise the goroutine
just returns. -/
def part1ListenerExit (e : Option ListenErr) : Option Nat :=
  if part1FatalOn e then some 1 else none

/-- part_001's shutdown goroutine (lines 65-102): logs the shutdown error
(line 98) or the success message (line 100) and returns — it never exits
the process, whichever way the drain went. -/
def part1ShutdownExit (_r : ShutdownResult) : Option Nat :=
  none

/-- part_001's main goroutine tail (line 109): `select {}` blocks forever
and never exits the process. -/
def part1MainExit : Option Nat :=
  none

/-- Process outcome of part_001 in an execution where `ListenAndServe`
returned `e` (`none` while it is still blocked) and the drain, if a signal
arrived, ended with `r`: the process exits when some goroutine exits it,
and otherwise runs forever. -/
def part1ProcessOutcome (e : Option ListenErr) (r : ShutdownResult) :
    ProcessOutcome :=
  match part1ListenerExit e, part1ShutdownExit r, part1MainExit with
  | some c, _, _ => ProcessOutcome.exited c
  | none, some c, _ => ProcessOutcome.exited c
  | none, none, some c => ProcessOutcome.exited c
  | none, none, none => ProcessOutcome.runsForever

/-- part_002's listener goroutine (lines 35-40): `log.Fatal` on any
non-nil error, exiting with code 1. -/
def part2ListenerExit (e : Option ListenErr) : Option Nat :=
  if part2FatalOn e then some 1 else none

/-- Process outcome of part_002 after `s.Shutdown(tc)` returns: the main
goroutine returns, which exits the process with code 0 — unless the
listener goroutine's `log.Fatal` (racing with it, since `ListenAndServe`
returns `ErrServerClosed` as soon as `Shutdown` begins) is scheduled
first; `fatalFirst` selects the schedule. -/
def part2ProcessOutcome (e : Option ListenErr) (fatalFirst : Bool) :
    ProcessOutcome :=
  match part2ListenerExit e with
  | some c => if fatalFirst then ProcessOutcome.exited c
              else ProcessOutcome.exited 0
  | none => ProcessOutcome.exited 0

/-- C2 counterexample: a part_001 execution in which shutdown completed
cleanly (`ListenAndServe` returned the expected `ErrServerClosed`, the
drain was clean) does not exit with code 0 — the process never exits at
all; and a part_002 execution in which the listener goroutine's
`log.Fatal` on `ErrServerClosed` wins the race exits with code 1. -/
theorem clean_shutdown_does_not_exit_zero :
    part1ProcessOutcome (some ListenErr.serverClosed) ShutdownResult.clean
        = ProcessOutcome.runsForever
    ∧ part1ProcessOutcome (some ListenErr.serverClosed) ShutdownResult.clean
        ≠ ProcessOutcome.exited 0
    ∧ part2ProcessOutcome (some ListenErr.serverClosed) true
        = ProcessOutcome.exited 1 := by
  decide

/-- C2 amended: part_001 never exits with code 0; it exits (with code 1,
via the logged fatal abort) exactly on an unexpected listen error, and in
every other execution — shutdown completed cleanly, forcibly, or no signal
at all — it runs forever; part_002 exits 0 after a clean shutdown only
when main's return is scheduled before the listener goroutine's fatal
abort on `ErrServerClosed`. -/
theorem exit_code_characterization :
    (∀ e r, part1ProcessOutcome e r ≠ ProcessOutcome.exited 0)
    ∧ (∀ e r, part1ProcessOutcome e r = ProcessOutcome.exited 1
        ↔ part1FatalOn e = true)
    ∧ (∀ f, part2ProcessOutcome (some ListenErr.serverClosed) f
        = ProcessOutcome.exited 0 ↔ f = false) := by
  refine ⟨?_, ?_, ?_⟩
  · intro e r
    cases e with
    | none => cases r <;> decide
    | some v => cases v <;> cases r <;> decide
  · intro e r
    cases e with
    | none => cases r <;> decide
    | some v => cases v <;> cases r <;> decide
  · intro f
    cases f <;> decide
